import Mathlib

/-!
Verification of the adaptive risk-governed mode controller of the trading bot.

The development shallowly embeds two subsystems of the repository:

* `NQE` — the "NDAX Quantum Engine" side: `src/config.py`,
  `src/execution/governor.py`, `src/execution/promotion.py` and the control
  loop of `src/main.py`.  Python floats are modelled as exact rationals,
  wall-clock instants as rational "minutes since process start", and the
  module-level mutable globals (`config.MODE`, `START_TIME`,
  `LIVE_START_TIME`, `RETRAINING_START_TIME`, `stats`) as an explicit
  `ModeState` record threaded through the functions.

* `Chimera` — the CHIMERA-BOT side: `src/chimera-bot/execution/governor.py`,
  `src/chimera-bot/execution/executor.py` and
  `src/chimera-bot/platforms/ndax_live.py`.  The mutable `Governor` and
  `NDAXLive` objects become explicit state records; Python exceptions become
  `Except` values.
-/

set_option maxHeartbeats 1000000

namespace NQE

/-- Trading mode, from `src/config.py`: `MODE = PAPER | LIVE_LIMITED | HALTED`. -/
inductive Mode where
  | PAPER
  | LIVE_LIMITED
  | HALTED
  deriving DecidableEq, Repr

/-- `RISK_LIMITS` from `src/config.py` (floats modelled as exact rationals). -/
structure RiskLimits where
  capital_cap : ℚ
  max_position : ℚ
  max_trades_per_hour : Nat
  hard_stop_loss : ℚ
  max_daily_loss : ℚ
  kill_switch : Bool
  deriving Repr, DecidableEq

/-- The default values of `RISK_LIMITS` in `src/config.py`
(capital_cap 0.5, max_position 0.05, 100 trades/hour, hard stop 0.30,
max daily loss 0.50, kill switch on). -/
def defaultRiskLimits : RiskLimits :=
  { capital_cap := 1/2
    max_position := 1/20
    max_trades_per_hour := 100
    hard_stop_loss := 3/10
    max_daily_loss := 1/2
    kill_switch := true }

/-- `PROMOTION` criteria from `src/config.py`. -/
structure PromotionCfg where
  min_minutes : ℚ
  min_trades : Nat
  min_win_rate : ℚ
  skip_after_good_runs : Nat
  deriving Repr, DecidableEq

/-- Default `PROMOTION` values (15 min, 8 trades, 70% win rate, skip after 3). -/
def defaultPromotion : PromotionCfg :=
  { min_minutes := 15, min_trades := 8, min_win_rate := 7/10, skip_after_good_runs := 3 }

/-- `DEMOTION` criteria from `src/config.py`. -/
structure DemotionCfg where
  min_live_minutes : ℚ
  min_win_rate : ℚ
  retraining_minutes : ℚ
  good_run_threshold : ℚ
  deriving Repr, DecidableEq

/-- Default `DEMOTION` values (60 min live, 60% win rate, 15 min retraining,
75% good-run threshold). -/
def defaultDemotion : DemotionCfg :=
  { min_live_minutes := 60, min_win_rate := 3/5, retraining_minutes := 15,
    good_run_threshold := 3/4 }

/-- The `state` dictionary consumed by `risk_check` in
`src/execution/governor.py` (and built in `src/main.py`). -/
structure AccountState where
  drawdown : ℚ
  daily_pnl : ℚ
  trades_last_hour : Nat
  deriving Repr, DecidableEq

/-- `risk_check` from `src/execution/governor.py`: three sequential checks,
each returning `False` immediately on violation. -/
def risk_check (rl : RiskLimits) (state : AccountState) : Bool :=
  if state.drawdown ≥ rl.hard_stop_loss then false
  else if state.daily_pnl ≤ -rl.max_daily_loss then false
  else if state.trades_last_hour ≥ rl.max_trades_per_hour then false
  else true

/-- `allowed_size` from `src/execution/governor.py`:
`usable = balance * capital_cap`, result `usable * max_position`. -/
def allowed_size (rl : RiskLimits) (balance : ℚ) : ℚ :=
  let usable := balance * rl.capital_cap
  usable * rl.max_position

/-- The `stats` dictionary of `src/execution/promotion.py`.  The two
timestamp-valued entries are rational instants (minutes), `none` standing for
Python `None`. -/
structure Stats where
  paper_trades : Nat
  wins : Nat
  losses : Nat
  drawdown : ℚ
  daily_pnl : ℚ
  trades_last_hour : Nat
  live_trades : Nat
  live_wins : Nat
  live_losses : Nat
  mode_switches : Nat
  consecutive_good_runs : Nat
  current_session_start : Option ℚ
  can_skip_paper : Bool
  deriving Repr, DecidableEq

/-- The initial `stats` dictionary literal of `src/execution/promotion.py`. -/
def initStats : Stats :=
  { paper_trades := 0, wins := 0, losses := 0, drawdown := 0, daily_pnl := 0,
    trades_last_hour := 0, live_trades := 0, live_wins := 0, live_losses := 0,
    mode_switches := 0, consecutive_good_runs := 0,
    current_session_start := none, can_skip_paper := false }

/-- `win_rate` from `src/execution/promotion.py`: `wins / total` when
`total > 0`, else `0`.  The guard means the division is only taken with a
positive denominator. -/
def win_rate (s : Stats) : ℚ :=
  let total := s.wins + s.losses
  if 0 < total then (s.wins : ℚ) / (total : ℚ) else 0

/-- `live_win_rate` from `src/execution/promotion.py`. -/
def live_win_rate (s : Stats) : ℚ :=
  let total := s.live_wins + s.live_losses
  if 0 < total then (s.live_wins : ℚ) / (total : ℚ) else 0

/-- The module-level mutable globals of `src/execution/promotion.py`
(`config.MODE`, `START_TIME`, `LIVE_START_TIME`, `RETRAINING_START_TIME`)
together with `stats`, as one explicit state record.  Times are in minutes. -/
structure ModeState where
  mode : Mode
  start_time : ℚ
  live_start_time : Option ℚ
  retraining_start_time : Option ℚ
  stats : Stats
  deriving Repr, DecidableEq

/-- The conjunction returned by the final `all([...])` of `can_promote`:
runtime, trade-count, win-rate and drawdown criteria. -/
def standardCriteria (pc : PromotionCfg) (rl : RiskLimits) (now : ℚ)
    (st : ModeState) : Bool :=
  decide (now - st.start_time ≥ pc.min_minutes) &&
  decide (st.stats.paper_trades ≥ pc.min_trades) &&
  decide (win_rate st.stats ≥ pc.min_win_rate) &&
  decide (st.stats.drawdown ≤ rl.hard_stop_loss)

/-- `can_promote` from `src/execution/promotion.py`.  It both returns the
eligibility flag and mutates state: the fast-skip branch sets
`can_skip_paper`, and a completed retraining window clears
`RETRAINING_START_TIME` before the standard criteria run. -/
def can_promote (pc : PromotionCfg) (dc : DemotionCfg) (rl : RiskLimits)
    (now : ℚ) (st : ModeState) : Bool × ModeState :=
  if st.stats.consecutive_good_runs ≥ pc.skip_after_good_runs then
    (true, { st with stats := { st.stats with can_skip_paper := true } })
  else
    match st.retraining_start_time with
    | some r =>
        if now - r < dc.retraining_minutes then
          (false, st)
        else
          let st2 := { st with retraining_start_time := none }
          (standardCriteria pc rl now st2, st2)
    | none => (standardCriteria pc rl now st, st)

/-- `should_demote` from `src/execution/promotion.py`: `False` when no live
session is recorded or the session is younger than `min_live_minutes`;
otherwise demote on low live win rate or excessive drawdown. -/
def should_demote (dc : DemotionCfg) (rl : RiskLimits) (now : ℚ)
    (st : ModeState) : Bool :=
  match st.live_start_time with
  | none => false
  | some l =>
      if now - l < dc.min_live_minutes then false
      else if live_win_rate st.stats < dc.min_win_rate then true
      else if st.stats.drawdown ≥ rl.hard_stop_loss then true
      else false

/-- `check_promotion` from `src/execution/promotion.py`.  The Python guard is
`config.MODE == "PAPER" and can_promote() and ALLOW_LIVE`: when the mode is
`PAPER`, `can_promote`'s state mutations always take effect, and promotion
additionally requires `ALLOW_LIVE`.  On promotion the mode flips to
`LIVE_LIMITED`, the live and session clocks start at `now`, `mode_switches`
increments and the skip flag is cleared. -/
def check_promotion (pc : PromotionCfg) (dc : DemotionCfg) (rl : RiskLimits)
    (allow_live : Bool) (now : ℚ) (st : ModeState) : ModeState :=
  if st.mode = Mode.PAPER then
    let p := can_promote pc dc rl now st
    if p.1 && allow_live then
      { p.2 with
        mode := Mode.LIVE_LIMITED
        live_start_time := some now
        stats := { p.2.stats with
          mode_switches := p.2.stats.mode_switches + 1
          current_session_start := some now
          can_skip_paper := false } }
    else p.2
  else st

/-- The good-run accounting block at the head of `check_demotion`:
when both `LIVE_START_TIME` and `current_session_start` are set and the
session has lasted at least `min_live_minutes` with a live win rate at or
above `good_run_threshold`, `consecutive_good_runs` increments and the
session marker clears. -/
def goodRunAccounting (dc : DemotionCfg) (now : ℚ) (st : ModeState) : ModeState :=
  match st.live_start_time, st.stats.current_session_start with
  | some _, some sess =>
      if now - sess ≥ dc.min_live_minutes then
        if live_win_rate st.stats ≥ dc.good_run_threshold then
          { st with stats := { st.stats with
              consecutive_good_runs := st.stats.consecutive_good_runs + 1
              current_session_start := none } }
        else st
      else st
  | _, _ => st

/-- `check_demotion` from `src/execution/promotion.py`: only acts in
`LIVE_LIMITED`; first runs good-run accounting, then, if `should_demote`,
returns to `PAPER`, starts the retraining window at `now`, restarts the
paper clock at `now`, clears the live and session clocks, increments
`mode_switches` and resets `consecutive_good_runs` to 0. -/
def check_demotion (dc : DemotionCfg) (rl : RiskLimits) (now : ℚ)
    (st : ModeState) : ModeState :=
  if st.mode = Mode.LIVE_LIMITED then
    let st1 := goodRunAccounting dc now st
    if should_demote dc rl now st1 then
      { st1 with
        mode := Mode.PAPER
        retraining_start_time := some now
        start_time := now
        live_start_time := none
        stats := { st1.stats with
          mode_switches := st1.stats.mode_switches + 1
          consecutive_good_runs := 0
          current_session_start := none } }
    else st1
  else st

/-- `record_trade` from `src/execution/promotion.py`: always bumps
`paper_trades`; bumps the global win/loss counter for the outcome; in
`LIVE_LIMITED` additionally bumps the live counters; accumulates a nonzero
`pnl` into `daily_pnl`. -/
def record_trade (mode : Mode) (outcome : String) (pnl : ℚ) (s : Stats) : Stats :=
  let s1 := { s with paper_trades := s.paper_trades + 1 }
  let s2 :=
    if outcome = "win" then { s1 with wins := s1.wins + 1 }
    else if outcome = "loss" then { s1 with losses := s1.losses + 1 }
    else s1
  let s3 :=
    if mode = Mode.LIVE_LIMITED then
      let t := { s2 with live_trades := s2.live_trades + 1 }
      if outcome = "win" then { t with live_wins := t.live_wins + 1 }
      else if outcome = "loss" then { t with live_losses := t.live_losses + 1 }
      else t
    else s2
  if pnl ≠ 0 then { s3 with daily_pnl := s3.daily_pnl + pnl } else s3

/-- `reset_hourly_counter` from `src/execution/promotion.py`. -/
def reset_hourly_counter (s : Stats) : Stats :=
  { s with trades_last_hour := 0 }

/-- The only periodic-boundary maintenance in the control loop of
`src/main.py`: when the wall-clock hour changes, `reset_hourly_counter()` is
called (and the loop's own hourly counter is zeroed).  No other field of
`stats` is touched at any hour or day boundary. -/
def hour_boundary_maintenance (new_hour : Bool) (s : Stats) : Stats :=
  if new_hour then reset_hourly_counter s else s

/-- One mode-control step of the loop in `src/main.py`: `check_promotion()`
immediately followed by `check_demotion()`. -/
def control_cycle (pc : PromotionCfg) (dc : DemotionCfg) (rl : RiskLimits)
    (allow_live : Bool) (now : ℚ) (st : ModeState) : ModeState :=
  check_demotion dc rl now (check_promotion pc dc rl allow_live now st)

/-- A fresh paper-mode process state (all globals at their initial values). -/
def paperState0 : ModeState :=
  { mode := Mode.PAPER, start_time := 0, live_start_time := none,
    retraining_start_time := none, stats := initStats }

/-- A paper-mode state with three consecutive good runs (the fast-skip
threshold) and a 50% drawdown, well above the 30% hard stop. -/
def skipRiskState : ModeState :=
  { mode := Mode.PAPER, start_time := 0, live_start_time := none,
    retraining_start_time := none,
    stats := { initStats with consecutive_good_runs := 3, drawdown := 1/2 } }

/-- A live-mode state whose session started at minute 0 with a 25% live win
rate (1 win, 3 losses) and two previously accumulated good runs. -/
def liveBadState : ModeState :=
  { mode := Mode.LIVE_LIMITED, start_time := 0, live_start_time := some 0,
    retraining_start_time := none,
    stats := { initStats with
                 live_trades := 4
                 live_wins := 1
                 live_losses := 3
                 consecutive_good_runs := 2
                 current_session_start := some 0 } }

end NQE

namespace Chimera

/-- The slice of the CHIMERA-BOT `Config` dataclass
(`src/chimera-bot/config.py`) read by `Governor`, `Executor` and `NDAXLive`.
Optional string credentials are modelled as `String`, the empty string
standing for Python `None`/missing (both are falsy in the source's
truthiness tests). -/
structure Config where
  max_position_size : ℚ
  max_daily_loss : ℚ
  stop_loss_percent : ℚ
  take_profit_percent : ℚ
  max_open_positions : Nat
  max_trades_per_day : Nat
  api_key : String
  api_secret : String
  deriving Repr, DecidableEq

/-- The mutable daily-tracking fields of `Governor`
(`src/chimera-bot/execution/governor.py`).  `last_reset` is a calendar-day
index. -/
structure GovState where
  daily_trades : Nat
  daily_loss : ℚ
  open_positions : Nat
  last_reset : Nat
  deriving Repr, DecidableEq

/-- A trading signal as read by `Governor.evaluate`
(`signal.get('position_size', 0)`, `signal.get('confidence', 0)`,
`signal.get('price', 0)`). -/
structure Signal where
  position_size : ℚ
  confidence : ℚ
  price : ℚ
  deriving Repr, DecidableEq

/-- The result dictionary of one `Governor._check_*` helper.  The source's
failure `reason` is an f-string embedding the limit value; here it is
abstracted to the stable `check` tag (the tags are exactly the source's
`check` field values, pairwise distinct, so "which check's reason is
carried" is preserved).  Passing results carry an empty reason. -/
structure CheckResult where
  passed : Bool
  check : String
  reason : String
  deriving Repr, DecidableEq

/-- The decision dictionary returned by `Governor.evaluate`.  The sizing
fields are only present on approval (`none` on rejection, as the source's
rejection dictionary has no such keys). -/
structure Decision where
  approved : Bool
  reason : String
  position_size : Option ℚ
  stop_loss : Option ℚ
  take_profit : Option ℚ
  deriving Repr, DecidableEq

/-- `Governor._check_daily_reset`: zero the daily counters when the calendar
day has advanced. -/
def check_daily_reset (today : Nat) (st : GovState) : GovState :=
  if st.last_reset < today then
    { st with daily_trades := 0, daily_loss := 0, last_reset := today }
  else st

/-- `Governor._check_daily_trade_limit`: fails when
`daily_trades >= max_trades_per_day`. -/
def check_daily_trade_limit (cfg : Config) (st : GovState) : CheckResult :=
  if st.daily_trades ≥ cfg.max_trades_per_day then
    { passed := false, check := "daily_trade_limit", reason := "daily_trade_limit" }
  else
    { passed := true, check := "daily_trade_limit", reason := "" }

/-- `Governor._check_daily_loss_limit`: fails when
`daily_loss >= max_daily_loss`. -/
def check_daily_loss_limit (cfg : Config) (st : GovState) : CheckResult :=
  if st.daily_loss ≥ cfg.max_daily_loss then
    { passed := false, check := "daily_loss_limit", reason := "daily_loss_limit" }
  else
    { passed := true, check := "daily_loss_limit", reason := "" }

/-- `Governor._check_position_limit`: fails when
`open_positions >= max_open_positions`. -/
def check_position_limit (cfg : Config) (st : GovState) : CheckResult :=
  if st.open_positions ≥ cfg.max_open_positions then
    { passed := false, check := "position_limit", reason := "position_limit" }
  else
    { passed := true, check := "position_limit", reason := "" }

/-- `Governor._check_position_size`: fails when the proposed size exceeds
`max_position_size`. -/
def check_position_size (cfg : Config) (sig : Signal) : CheckResult :=
  if sig.position_size > cfg.max_position_size then
    { passed := false, check := "position_size", reason := "position_size" }
  else
    { passed := true, check := "position_size", reason := "" }

/-- `Governor._check_signal_quality`: `min_confidence = 0.6`; fails when
`confidence < min_confidence`. -/
def check_signal_quality (sig : Signal) : CheckResult :=
  if sig.confidence < 3/5 then
    { passed := false, check := "signal_quality", reason := "signal_quality" }
  else
    { passed := true, check := "signal_quality", reason := "" }

/-- `Governor._calculate_position_size`:
`min(position_size * confidence, max_position_size)`. -/
def calculate_position_size (cfg : Config) (sig : Signal) : ℚ :=
  min (sig.position_size * sig.confidence) cfg.max_position_size

/-- `Governor._calculate_stop_loss`: `price * (1 - stop_loss_percent)`. -/
def calculate_stop_loss (cfg : Config) (sig : Signal) : ℚ :=
  sig.price * (1 - cfg.stop_loss_percent)

/-- `Governor._calculate_take_profit`: `price * (1 + take_profit_percent)`. -/
def calculate_take_profit (cfg : Config) (sig : Signal) : ℚ :=
  sig.price * (1 + cfg.take_profit_percent)

/-- The check list built inside `Governor.evaluate`, in the source's order:
daily trade limit, daily loss limit, open-position limit, position size,
signal quality. -/
def governorChecks (cfg : Config) (sig : Signal) (st : GovState) :
    List CheckResult :=
  [ check_daily_trade_limit cfg st,
    check_daily_loss_limit cfg st,
    check_position_limit cfg st,
    check_position_size cfg sig,
    check_signal_quality sig ]

/-- The `for check in checks` loop body of `Governor.evaluate`: return the
first check whose `passed` flag is false, if any. -/
def firstFailure : List CheckResult → Option CheckResult
  | [] => none
  | c :: rest => if c.passed then firstFailure rest else some c

/-- `Governor.evaluate`: daily reset, then the `for check in checks` loop
returning the first failing check's reason, else the approval dictionary
with computed sizing. -/
def evaluate (cfg : Config) (today : Nat) (sig : Signal) (st : GovState) :
    GovState × Decision :=
  let st1 := check_daily_reset today st
  match firstFailure (governorChecks cfg sig st1) with
  | some c =>
      (st1, { approved := false, reason := c.reason,
              position_size := none, stop_loss := none, take_profit := none })
  | none =>
      (st1, { approved := true, reason := "all_risk_checks_passed",
              position_size := some (calculate_position_size cfg sig),
              stop_loss := some (calculate_stop_loss cfg sig),
              take_profit := some (calculate_take_profit cfg sig) })

/-- An order as prepared by `Executor._prepare_order`. -/
structure Order where
  symbol : String
  action : String
  price : ℚ
  quantity : ℚ
  deriving Repr, DecidableEq

/-- The execution result dictionary returned by
`NDAXLive._execute_ndax_order` (the nonce in the order id is abstracted). -/
structure OrderResult where
  order_id : String
  status : String
  filled_price : ℚ
  filled_quantity : ℚ
  deriving Repr, DecidableEq

/-- The failure modes of the live path: the `PermissionError` raised under
the safety lock, the rate-limit `Exception` of `_check_rate_limit`, and the
`ValueError` raised for missing credentials. -/
inductive LiveError where
  | safetyLock
  | rateLimit
  | credentials
  deriving DecidableEq, Repr

/-- The state of an `NDAXLive` connector
(`src/chimera-bot/platforms/ndax_live.py`): the class-level `SAFETY_LOCK`,
the credentials, the append-only `live_orders` log and the sliding
`rate_limit_window` of order timestamps (seconds). -/
structure NDAXLive where
  safety_lock : Bool
  api_key : String
  api_secret : String
  live_orders : List (ℚ × Order × OrderResult)
  rate_limit_window : List ℚ
  deriving Repr, DecidableEq

/-- The number of timestamps in the window that still count against the
rate limit at instant `now` (entries younger than 60 seconds) — the
"rate-limit budget" consumed so far. -/
def recentCount (now : ℚ) (w : List ℚ) : Nat :=
  (w.filter (fun t => now - t < 60)).length

/-- `NDAXLive._execute_ndax_order`'s mock fill for an order payload:
status `filled` at the limit price and quantity. -/
def execute_ndax_order (order : Order) : OrderResult :=
  { order_id := "LIVE", status := "filled",
    filled_price := order.price, filled_quantity := order.quantity }

/-- `NDAXLive.place_order`.  Raising is modelled as an `Except.error`
carried next to the post-state: the safety-lock check fires first and leaves
the state untouched; `_check_rate_limit` then prunes entries older than 60
seconds and raises when 10 or more remain (the pruned window is the
post-state, as `self.rate_limit_window` was reassigned before the raise);
otherwise `now` joins the window, the mock execution fills, and the order is
appended to `live_orders`. -/
def place_order (now : ℚ) (st : NDAXLive) (order : Order) :
    NDAXLive × Except LiveError OrderResult :=
  if st.safety_lock then
    (st, Except.error LiveError.safetyLock)
  else
    let pruned := st.rate_limit_window.filter (fun t => now - t < 60)
    if 10 ≤ pruned.length then
      ({ st with rate_limit_window := pruned }, Except.error LiveError.rateLimit)
    else
      let st1 := { st with rate_limit_window := pruned ++ [now] }
      let result := execute_ndax_order order
      ({ st1 with live_orders := st1.live_orders ++ [(now, order, result)] },
       Except.ok result)

/-- `Executor._execute_live` (`src/chimera-bot/execution/executor.py`):
first the credential check (`not api_key or not api_secret` raises
`ValueError`), then the platform's `place_order`. -/
def execute_live (cfg : Config) (now : ℚ) (platform : NDAXLive)
    (order : Order) : NDAXLive × Except LiveError OrderResult :=
  if cfg.api_key = "" || cfg.api_secret = "" then
    (platform, Except.error LiveError.credentials)
  else
    place_order now platform order

/-- The dataclass defaults of `src/chimera-bot/config.py`
(max_position_size 0.1, max_daily_loss 0.05, stop 0.02, take 0.05,
5 open positions, 20 trades/day), here with credentials set. -/
def exampleConfig : Config :=
  { max_position_size := 1/10, max_daily_loss := 1/20,
    stop_loss_percent := 1/50, take_profit_percent := 1/20,
    max_open_positions := 5, max_trades_per_day := 20,
    api_key := "k", api_secret := "s" }

/-- A credentialed platform whose class-level safety lock is still enabled
(the source default `SAFETY_LOCK = True`). -/
def lockedPlatform : NDAXLive :=
  { safety_lock := true, api_key := "k", api_secret := "s",
    live_orders := [], rate_limit_window := [] }

/-- A concrete order. -/
def exampleOrder : Order :=
  { symbol := "BTC/USD", action := "buy", price := 100, quantity := 1 }

/-- A fresh governor daily-tracking state at day 0. -/
def exampleGovState : GovState :=
  { daily_trades := 0, daily_loss := 0, open_positions := 0, last_reset := 0 }

/-- A signal whose confidence 0.5 sits below the 0.6 quality floor. -/
def exampleSignal : Signal :=
  { position_size := 1/20, confidence := 1/2, price := 100 }

end Chimera

namespace NQE

/-- `can_promote` never changes the mode: its state mutations touch only the
skip flag and the retraining timer. -/
theorem can_promote_mode (pc : PromotionCfg) (dc : DemotionCfg)
    (rl : RiskLimits) (now : ℚ) (st : ModeState) :
    (can_promote pc dc rl now st).2.mode = st.mode := by
  unfold can_promote
  split
  · rfl
  · split
    · split <;> rfl
    · rfl

/-- Good-run accounting does not touch the live-session start timestamp. -/
theorem goodRunAccounting_live_start_time (dc : DemotionCfg) (now : ℚ)
    (st : ModeState) :
    (goodRunAccounting dc now st).live_start_time = st.live_start_time := by
  unfold goodRunAccounting
  split
  · split
    · split <;> rfl
    · rfl
  · rfl

/-- Good-run accounting does not touch the live win/loss counters, hence the
live win rate. -/
theorem goodRunAccounting_live_win_rate (dc : DemotionCfg) (now : ℚ)
    (st : ModeState) :
    live_win_rate (goodRunAccounting dc now st).stats = live_win_rate st.stats := by
  unfold goodRunAccounting
  split
  · split
    · split <;> rfl
    · rfl
  · rfl

/-- Good-run accounting does not touch the drawdown. -/
theorem goodRunAccounting_drawdown (dc : DemotionCfg) (now : ℚ)
    (st : ModeState) :
    (goodRunAccounting dc now st).stats.drawdown = st.stats.drawdown := by
  unfold goodRunAccounting
  split
  · split
    · split <;> rfl
    · rfl
  · rfl

/-- `should_demote` only reads the live start time, the live win rate and the
drawdown, all preserved by good-run accounting. -/
theorem should_demote_goodRunAccounting (dc : DemotionCfg) (rl : RiskLimits)
    (now : ℚ) (st : ModeState) :
    should_demote dc rl now (goodRunAccounting dc now st) =
      should_demote dc rl now st := by
  unfold should_demote
  rw [goodRunAccounting_live_start_time]
  cases st.live_start_time with
  | none => rfl
  | some l => rw [goodRunAccounting_live_win_rate, goodRunAccounting_drawdown]

/-- When `check_demotion` runs in `LIVE_LIMITED` with `should_demote` true,
the demotion branch fires and produces the documented post-state. -/
theorem demotion_fires (dc : DemotionCfg) (rl : RiskLimits) (now : ℚ)
    (st : ModeState) (h1 : st.mode = Mode.LIVE_LIMITED)
    (h2 : should_demote dc rl now st = true) :
    (check_demotion dc rl now st).mode = Mode.PAPER ∧
    (check_demotion dc rl now st).stats.consecutive_good_runs = 0 ∧
    (check_demotion dc rl now st).retraining_start_time = some now ∧
    (check_demotion dc rl now st).start_time = now ∧
    (check_demotion dc rl now st).live_start_time = none := by
  unfold check_demotion
  rw [if_pos h1]
  have h3 : should_demote dc rl now (goodRunAccounting dc now st) = true := by
    rw [should_demote_goodRunAccounting]
    exact h2
  rw [if_pos h3]
  exact ⟨rfl, rfl, rfl, rfl, rfl⟩

end NQE

/-- C4: for every risk-limit configuration and account state whose drawdown is
at least `hard_stop_loss`, `risk_check` returns `false`, whatever the other
fields hold. -/
theorem C4_hard_stop_rejects (rl : NQE.RiskLimits) (state : NQE.AccountState)
    (h : state.drawdown ≥ rl.hard_stop_loss) :
    NQE.risk_check rl state = false := by
  unfold NQE.risk_check
  rw [if_pos h]

/-- Witness for C4 at Scenario B: drawdown 0.35 against the default hard stop
0.30 is rejected. -/
theorem C4_hard_stop_rejects_witness :
    ({ drawdown := 35/100, daily_pnl := 0, trades_last_hour := 0 } :
        NQE.AccountState).drawdown ≥ NQE.defaultRiskLimits.hard_stop_loss ∧
    NQE.risk_check NQE.defaultRiskLimits
      { drawdown := 35/100, daily_pnl := 0, trades_last_hour := 0 } = false :=
  ⟨by norm_num [NQE.defaultRiskLimits],
   C4_hard_stop_rejects NQE.defaultRiskLimits
     { drawdown := 35/100, daily_pnl := 0, trades_last_hour := 0 }
     (by norm_num [NQE.defaultRiskLimits])⟩

/-- C5: `allowed_size` is exactly `balance * capital_cap * max_position` for
every balance and limit set, and at the default limits (cap 0.5, position
0.05) a balance of 10000 yields exactly 250. -/
theorem C5_allowed_size_formula :
    (∀ (rl : NQE.RiskLimits) (balance : ℚ),
        NQE.allowed_size rl balance = balance * rl.capital_cap * rl.max_position) ∧
    NQE.allowed_size NQE.defaultRiskLimits 10000 = 250 := by
  constructor
  · intro rl balance
    rfl
  · norm_num [NQE.allowed_size, NQE.defaultRiskLimits]

/-- C8: both win rates equal `wins / (wins + losses)` whenever some outcome
was recorded, and are the defined value 0 when no outcome was recorded — the
sources guard the division by `total > 0`, so it is never taken with a zero
denominator. -/
theorem C8_win_rate_total (s : NQE.Stats) :
    (s.wins + s.losses = 0 → NQE.win_rate s = 0) ∧
    (0 < s.wins + s.losses →
      NQE.win_rate s = (s.wins : ℚ) / ((s.wins : ℚ) + (s.losses : ℚ))) ∧
    (s.live_wins + s.live_losses = 0 → NQE.live_win_rate s = 0) ∧
    (0 < s.live_wins + s.live_losses →
      NQE.live_win_rate s =
        (s.live_wins : ℚ) / ((s.live_wins : ℚ) + (s.live_losses : ℚ))) := by
  refine ⟨fun h => ?_, fun h => ?_, fun h => ?_, fun h => ?_⟩
  · simp [NQE.win_rate, h]
  · simp [NQE.win_rate, h]
  · simp [NQE.live_win_rate, h]
  · simp [NQE.live_win_rate, h]

/-- Witness for C8: with zero wins and zero losses both rates are exactly 0. -/
theorem C8_win_rate_total_witness :
    NQE.win_rate NQE.initStats = 0 ∧ NQE.live_win_rate NQE.initStats = 0 :=
  ⟨(C8_win_rate_total NQE.initStats).1 rfl,
   (C8_win_rate_total NQE.initStats).2.2.1 rfl⟩

/-- C1: with the allow-live flag false, `check_promotion` leaves a paper-mode
state in `PAPER`, for every configuration, instant and statistics state —
fast-skip eligibility included. -/
theorem C1_no_promotion_without_allow_live (pc : NQE.PromotionCfg)
    (dc : NQE.DemotionCfg) (rl : NQE.RiskLimits) (now : ℚ)
    (st : NQE.ModeState) (h : st.mode = NQE.Mode.PAPER) :
    (NQE.check_promotion pc dc rl false now st).mode = NQE.Mode.PAPER := by
  unfold NQE.check_promotion
  rw [if_pos h]
  simp only [Bool.and_false, Bool.false_eq_true, if_false, NQE.can_promote_mode]
  exact h

/-- Witness for C1: a fast-skip-eligible state (three consecutive good runs)
stays in `PAPER` when allow-live is false. -/
theorem C1_no_promotion_without_allow_live_witness :
    (NQE.can_promote NQE.defaultPromotion NQE.defaultDemotion
        NQE.defaultRiskLimits 20 NQE.skipRiskState).1 = true ∧
    (NQE.check_promotion NQE.defaultPromotion NQE.defaultDemotion
        NQE.defaultRiskLimits false 20 NQE.skipRiskState).mode = NQE.Mode.PAPER :=
  ⟨by decide,
   C1_no_promotion_without_allow_live NQE.defaultPromotion NQE.defaultDemotion
     NQE.defaultRiskLimits 20 NQE.skipRiskState rfl⟩

/-- C6: whenever `check_demotion` fires in `LIVE_LIMITED` with
`should_demote` true, the post-state is back in `PAPER` with
`consecutive_good_runs` 0, the retraining window anchored at the demotion
instant, the paper clock restarted at that instant, and the live clock
cleared. -/
theorem C6_demotion_postconditions (dc : NQE.DemotionCfg) (rl : NQE.RiskLimits)
    (now : ℚ) (st : NQE.ModeState) (h1 : st.mode = NQE.Mode.LIVE_LIMITED)
    (h2 : NQE.should_demote dc rl now st = true) :
    (NQE.check_demotion dc rl now st).mode = NQE.Mode.PAPER ∧
    (NQE.check_demotion dc rl now st).stats.consecutive_good_runs = 0 ∧
    (NQE.check_demotion dc rl now st).retraining_start_time = some now ∧
    (NQE.check_demotion dc rl now st).start_time = now ∧
    (NQE.check_demotion dc rl now st).live_start_time = none :=
  NQE.demotion_fires dc rl now st h1 h2

/-- Witness for C6: a 100-minute live session at a 25% live win rate demotes
under the default criteria, with all four post-state facts holding. -/
theorem C6_demotion_postconditions_witness :
    (NQE.check_demotion NQE.defaultDemotion NQE.defaultRiskLimits 100
        NQE.liveBadState).mode = NQE.Mode.PAPER ∧
    (NQE.check_demotion NQE.defaultDemotion NQE.defaultRiskLimits 100
        NQE.liveBadState).stats.consecutive_good_runs = 0 ∧
    (NQE.check_demotion NQE.defaultDemotion NQE.defaultRiskLimits 100
        NQE.liveBadState).retraining_start_time = some 100 ∧
    (NQE.check_demotion NQE.defaultDemotion NQE.defaultRiskLimits 100
        NQE.liveBadState).start_time = 100 ∧
    (NQE.check_demotion NQE.defaultDemotion NQE.defaultRiskLimits 100
        NQE.liveBadState).live_start_time = none :=
  C6_demotion_postconditions NQE.defaultDemotion NQE.defaultRiskLimits 100
    NQE.liveBadState rfl
    (by norm_num [NQE.should_demote, NQE.live_win_rate, NQE.liveBadState,
      NQE.initStats, NQE.defaultDemotion, NQE.defaultRiskLimits])

/-- C3 counterexample: a cycle in which both the promotion criteria (the
fast-skip path: three consecutive good runs) and the demotion performance
criterion (drawdown 0.5 ≥ hard stop 0.3) hold at the start, with allow-live
set, ends in `LIVE_LIMITED` with `consecutive_good_runs` still 3: the
promotion inside the cycle restarts the live clock, so `should_demote` sees
a 0-minute session (below the default 60-minute floor) and demotion does not
take precedence. -/
theorem C3_counterexample :
    (NQE.can_promote NQE.defaultPromotion NQE.defaultDemotion
        NQE.defaultRiskLimits 100 NQE.skipRiskState).1 = true ∧
    NQE.skipRiskState.stats.drawdown ≥ NQE.defaultRiskLimits.hard_stop_loss ∧
    (NQE.control_cycle NQE.defaultPromotion NQE.defaultDemotion
        NQE.defaultRiskLimits true 100 NQE.skipRiskState).mode =
      NQE.Mode.LIVE_LIMITED ∧
    (NQE.control_cycle NQE.defaultPromotion NQE.defaultDemotion
        NQE.defaultRiskLimits true 100 NQE.skipRiskState).stats.consecutive_good_runs
      = 3 := by
  refine ⟨?_, ?_, ?_, ?_⟩ <;>
    norm_num [NQE.control_cycle, NQE.check_promotion, NQE.check_demotion,
      NQE.can_promote, NQE.standardCriteria, NQE.goodRunAccounting,
      NQE.should_demote, NQE.win_rate, NQE.live_win_rate, NQE.skipRiskState,
      NQE.initStats, NQE.defaultPromotion, NQE.defaultDemotion,
      NQE.defaultRiskLimits]

/-- C3 as amended: demotion takes precedence only for a cycle that starts in
`LIVE_LIMITED` with `should_demote` already true — such a cycle
(`check_promotion` then `check_demotion`) ends in `PAPER` with
`consecutive_good_runs` 0, for every allow-live value.  A cycle that
promotes cannot demote in the same cycle, because promotion restarts the
live clock (see the counterexample). -/
theorem C3_demotion_precedence_amended (pc : NQE.PromotionCfg)
    (dc : NQE.DemotionCfg) (rl : NQE.RiskLimits) (allow_live : Bool) (now : ℚ)
    (st : NQE.ModeState) (h1 : st.mode = NQE.Mode.LIVE_LIMITED)
    (h2 : NQE.should_demote dc rl now st = true) :
    (NQE.control_cycle pc dc rl allow_live now st).mode = NQE.Mode.PAPER ∧
    (NQE.control_cycle pc dc rl allow_live now st).stats.consecutive_good_runs
      = 0 := by
  have hcp : NQE.check_promotion pc dc rl allow_live now st = st := by
    unfold NQE.check_promotion
    rw [if_neg]
    rw [h1]
    intro hcon
    exact NQE.Mode.noConfusion hcon
  unfold NQE.control_cycle
  rw [hcp]
  exact ⟨(NQE.demotion_fires dc rl now st h1 h2).1,
         (NQE.demotion_fires dc rl now st h1 h2).2.1⟩

/-- Witness for the amended C3: the bad live session demotes across a full
cycle even with allow-live set. -/
theorem C3_demotion_precedence_amended_witness :
    (NQE.control_cycle NQE.defaultPromotion NQE.defaultDemotion
        NQE.defaultRiskLimits true 100 NQE.liveBadState).mode =
      NQE.Mode.PAPER ∧
    (NQE.control_cycle NQE.defaultPromotion NQE.defaultDemotion
        NQE.defaultRiskLimits true 100
        NQE.liveBadState).stats.consecutive_good_runs = 0 :=
  C3_demotion_precedence_amended NQE.defaultPromotion NQE.defaultDemotion
    NQE.defaultRiskLimits true 100 NQE.liveBadState rfl
    (by norm_num [NQE.should_demote, NQE.live_win_rate, NQE.liveBadState,
      NQE.initStats, NQE.defaultDemotion, NQE.defaultRiskLimits])

/-- C2: on the live execution path, a platform with the safety lock enabled
or a configuration with missing credentials makes `_execute_live` fail
closed: the result is the credential `ValueError` or the safety-lock
`PermissionError`, and nothing is appended to the platform's live order log
— the error is surfaced, never replaced by a simulated fill. -/
theorem C2_live_path_fails_closed (cfg : Chimera.Config) (now : ℚ)
    (pf : Chimera.NDAXLive) (order : Chimera.Order)
    (h : pf.safety_lock = true ∨ cfg.api_key = "" ∨ cfg.api_secret = "") :
    ((Chimera.execute_live cfg now pf order).2 =
        Except.error Chimera.LiveError.credentials ∨
     (Chimera.execute_live cfg now pf order).2 =
        Except.error Chimera.LiveError.safetyLock) ∧
    (Chimera.execute_live cfg now pf order).1.live_orders = pf.live_orders := by
  by_cases hk : cfg.api_key = ""
  · simp [Chimera.execute_live, hk]
  · by_cases hs : cfg.api_secret = ""
    · simp [Chimera.execute_live, hk, hs]
    · have hl : pf.safety_lock = true := by
        rcases h with hl | hk2 | hs2
        · exact hl
        · exact absurd hk2 hk
        · exact absurd hs2 hs
      simp [Chimera.execute_live, Chimera.place_order, hk, hs, hl]

/-- Witness for C2: a locked (though credentialed) platform yields a closed
failure and an unchanged order log. -/
theorem C2_live_path_fails_closed_witness :
    ((Chimera.execute_live Chimera.exampleConfig 0 Chimera.lockedPlatform
        Chimera.exampleOrder).2 = Except.error Chimera.LiveError.credentials ∨
     (Chimera.execute_live Chimera.exampleConfig 0 Chimera.lockedPlatform
        Chimera.exampleOrder).2 = Except.error Chimera.LiveError.safetyLock) ∧
    (Chimera.execute_live Chimera.exampleConfig 0 Chimera.lockedPlatform
        Chimera.exampleOrder).1.live_orders = Chimera.lockedPlatform.live_orders :=
  C2_live_path_fails_closed Chimera.exampleConfig 0 Chimera.lockedPlatform
    Chimera.exampleOrder (Or.inl rfl)

/-- C10: when `place_order` raises — safety lock enabled, or 10 timestamps
already inside the 60-second window — the attempt appends nothing to
`live_orders`, adds no timestamp to the rate-limit window (the post-window
is a sublist of the pre-window; the rate-limit branch merely prunes expired
entries), and the count of in-window timestamps, the consumed budget, is
unchanged. -/
theorem C10_rejected_order_state (now : ℚ) (st : Chimera.NDAXLive)
    (order : Chimera.Order)
    (h : st.safety_lock = true ∨
         10 ≤ Chimera.recentCount now st.rate_limit_window) :
    (Chimera.place_order now st order).2 =
      Except.error (if st.safety_lock then Chimera.LiveError.safetyLock
                    else Chimera.LiveError.rateLimit) ∧
    (Chimera.place_order now st order).1.live_orders = st.live_orders ∧
    List.Sublist (Chimera.place_order now st order).1.rate_limit_window
      st.rate_limit_window ∧
    Chimera.recentCount now (Chimera.place_order now st order).1.rate_limit_window
      = Chimera.recentCount now st.rate_limit_window := by
  by_cases hl : st.safety_lock = true
  · refine ⟨?_, ?_, ?_, ?_⟩ <;>
      simp [Chimera.place_order, hl, List.Sublist.refl]
  · have hlf : st.safety_lock = false := by
      cases hsl : st.safety_lock
      · rfl
      · exact absurd hsl hl
    have hr : 10 ≤ (st.rate_limit_window.filter (fun t => now - t < 60)).length := by
      rcases h with h1 | h2
      · exact absurd h1 hl
      · exact h2
    refine ⟨?_, ?_, ?_, ?_⟩
    · simp [Chimera.place_order, hlf, hr]
    · simp [Chimera.place_order, hlf, hr]
    · simp only [Chimera.place_order, hlf, Bool.false_eq_true, if_false, if_pos hr]
      exact List.filter_sublist _
    · simp [Chimera.place_order, hlf, hr, Chimera.recentCount,
        List.filter_filter, Bool.and_self]

/-- Witness for C10: a locked platform rejects an order and its state keeps
an empty order log and an untouched (empty) rate window. -/
theorem C10_rejected_order_state_witness :
    (Chimera.place_order 0 Chimera.lockedPlatform Chimera.exampleOrder).2 =
      Except.error (if Chimera.lockedPlatform.safety_lock
                    then Chimera.LiveError.safetyLock
                    else Chimera.LiveError.rateLimit) ∧
    (Chimera.place_order 0 Chimera.lockedPlatform Chimera.exampleOrder).1.live_orders
      = Chimera.lockedPlatform.live_orders ∧
    List.Sublist
      (Chimera.place_order 0 Chimera.lockedPlatform
        Chimera.exampleOrder).1.rate_limit_window
      Chimera.lockedPlatform.rate_limit_window ∧
    Chimera.recentCount 0
      (Chimera.place_order 0 Chimera.lockedPlatform
        Chimera.exampleOrder).1.rate_limit_window
      = Chimera.recentCount 0 Chimera.lockedPlatform.rate_limit_window :=
  C10_rejected_order_state 0 Chimera.lockedPlatform Chimera.exampleOrder
    (Or.inl rfl)

/-- C7: `Governor.evaluate` approves exactly when all five checks pass
(daily trade limit, daily loss limit, open-position limit, position size,
and signal confidence at least 0.6), and its reason is the first failing
check's reason in that fixed order (or the approval reason when none
fails). -/
theorem C7_governor_ordered_checks (cfg : Chimera.Config) (today : Nat)
    (sig : Chimera.Signal) (st : Chimera.GovState) :
    ((Chimera.evaluate cfg today sig st).2.approved = true ↔
      (¬ cfg.max_trades_per_day ≤ (Chimera.check_daily_reset today st).daily_trades ∧
       ¬ cfg.max_daily_loss ≤ (Chimera.check_daily_reset today st).daily_loss ∧
       ¬ cfg.max_open_positions ≤ (Chimera.check_daily_reset today st).open_positions ∧
       ¬ cfg.max_position_size < sig.position_size ∧
       ¬ sig.confidence < 3/5)) ∧
    (Chimera.evaluate cfg today sig st).2.reason =
      (if cfg.max_trades_per_day ≤ (Chimera.check_daily_reset today st).daily_trades
       then "daily_trade_limit"
       else if cfg.max_daily_loss ≤ (Chimera.check_daily_reset today st).daily_loss
       then "daily_loss_limit"
       else if cfg.max_open_positions ≤ (Chimera.check_daily_reset today st).open_positions
       then "position_limit"
       else if cfg.max_position_size < sig.position_size
       then "position_size"
       else if sig.confidence < 3/5
       then "signal_quality"
       else "all_risk_checks_passed") := by
  by_cases h1 : cfg.max_trades_per_day ≤ (Chimera.check_daily_reset today st).daily_trades <;>
  by_cases h2 : cfg.max_daily_loss ≤ (Chimera.check_daily_reset today st).daily_loss <;>
  by_cases h3 : cfg.max_open_positions ≤ (Chimera.check_daily_reset today st).open_positions <;>
  by_cases h4 : cfg.max_position_size < sig.position_size <;>
  by_cases h5 : sig.confidence < 3/5 <;>
  simp [Chimera.evaluate, Chimera.governorChecks, Chimera.firstFailure,
    Chimera.check_daily_trade_limit, Chimera.check_daily_loss_limit,
    Chimera.check_position_limit, Chimera.check_position_size,
    Chimera.check_signal_quality, h1, h2, h3, h4, h5]

/-- C9 counterexample: `record_trade` leaves the accumulated pnl in
`daily_pnl` across the loop's only periodic maintenance (the hour-boundary
reset, which every calendar-day boundary passes through): after recording a
win with pnl 5 and crossing the boundary, `daily_pnl` is still 5, not the 0
the claimed calendar-day reset would require.  No operation of
`src/execution/promotion.py` or of the loop in `src/main.py` ever resets
`stats["daily_pnl"]`. -/
theorem C9_counterexample :
    (NQE.hour_boundary_maintenance true
        (NQE.record_trade NQE.Mode.PAPER "win" 5 NQE.initStats)).daily_pnl = 5 ∧
    (5 : ℚ) ≠ 0 := by
  constructor
  · simp [NQE.hour_boundary_maintenance, NQE.reset_hourly_counter,
      NQE.record_trade, NQE.initStats]
  · norm_num

/-- C9 as amended: `record_trade` with outcome `win`/`loss` bumps the global
trade and outcome counters, additionally bumps the live-scoped counters
exactly in `LIVE_LIMITED`, and accumulates the pnl into `daily_pnl`; but the
only calendar-day reset in the sources is the chimera governor's
`_check_daily_reset`, which zeroes its own `daily_trades`/`daily_loss` —
`stats["daily_pnl"]` itself survives the loop's boundary maintenance. -/
theorem C9_record_trade_amended (mode : NQE.Mode) (pnl : ℚ) (s : NQE.Stats)
    (gs : Chimera.GovState) (today : Nat) (h : gs.last_reset < today) :
    (NQE.record_trade mode "win" pnl s).paper_trades = s.paper_trades + 1 ∧
    (NQE.record_trade mode "win" pnl s).wins = s.wins + 1 ∧
    (NQE.record_trade mode "loss" pnl s).losses = s.losses + 1 ∧
    (NQE.record_trade NQE.Mode.LIVE_LIMITED "win" pnl s).live_wins
      = s.live_wins + 1 ∧
    (NQE.record_trade NQE.Mode.LIVE_LIMITED "loss" pnl s).live_losses
      = s.live_losses + 1 ∧
    (NQE.record_trade NQE.Mode.PAPER "win" pnl s).live_wins = s.live_wins ∧
    (NQE.record_trade NQE.Mode.PAPER "loss" pnl s).live_losses = s.live_losses ∧
    (NQE.record_trade mode "win" pnl s).daily_pnl = s.daily_pnl + pnl ∧
    (NQE.record_trade mode "loss" pnl s).daily_pnl = s.daily_pnl + pnl ∧
    (NQE.hour_boundary_maintenance true s).daily_pnl = s.daily_pnl ∧
    (Chimera.check_daily_reset today gs).daily_trades = 0 ∧
    (Chimera.check_daily_reset today gs).daily_loss = 0 := by
  refine ⟨?_, ?_, ?_, ?_, ?_, ?_, ?_, ?_, ?_, ?_, ?_, ?_⟩ <;>
    first
    | (cases mode <;> by_cases hp : pnl = 0 <;> simp [NQE.record_trade, hp])
    | simp [NQE.hour_boundary_maintenance, NQE.reset_hourly_counter]
    | simp [Chimera.check_daily_reset, h]

/-- Witness for the amended C9: a concrete paper win with pnl 5 bumps the
global win counter, and the chimera governor's day-boundary reset zeroes its
daily trade counter. -/
theorem C9_record_trade_amended_witness :
    (NQE.record_trade NQE.Mode.PAPER "win" 5 NQE.initStats).wins =
      NQE.initStats.wins + 1 ∧
    (Chimera.check_daily_reset 1 Chimera.exampleGovState).daily_trades = 0 := by
  have H := C9_record_trade_amended NQE.Mode.PAPER 5 NQE.initStats
    Chimera.exampleGovState 1 (by norm_num [Chimera.exampleGovState])
  exact ⟨H.2.1, H.2.2.2.2.2.2.2.2.2.2.1⟩
